import Mathlib

/-!
Shallow embedding of the virtual network-interface cache of
ipxwrapper (src/src/interface.c), together with theorems checking the
natural-language specification against it.

Modelling conventions:

* Machine integers are Nat with explicit reductions modulo 2^32 at the
  points where the C code produces a uint32_t (the inet_addr boundary,
  and the addr32_out byte store of the Hamachi workaround).
* Linked lists (IP_ADAPTER_INFO chains, IP_ADDR_STRING chains,
  ipx_interface / ipx_interface_ip chains built with utlist's
  DL_APPEND / DL_PREPEND) become Lean lists in the same order.
* malloc / realloc is modelled by an allocation oracle
  al : Nat -> Bool consumed with an explicit counter: the k-th
  allocation of a run succeeds iff al k = true.
* Fallible C functions that return NULL keep an Option or an explicit
  result inductive.  Undefined behaviour (dereferencing a NULL next
  pointer, using memory after it has been freed) is a distinguished
  result constructor: once the C code commits undefined behaviour
  nothing further is specified, so the embedding stops there.
* time_t values are Int; time(NULL) is passed in as a parameter (one
  value per call site, in program order).
-/

set_option autoImplicit false

namespace IpxWrapper

/-- One IP_ADDR_STRING entry of an adapter: the numeric values that
inet_addr produces for the IpAddress and IpMask strings.  Addresses are
kept as the big-endian numeric reading of the dotted quad, e.g.
10.0.0.5 is 0x0A000005. -/
structure IpAddrString where
  ipaddr : Nat
  netmask : Nat
deriving DecidableEq, Repr

/-- One IP_ADAPTER_INFO node: the 48-bit hardware address (as read by
addr48_in) and the chain of bound IP/netmask pairs. -/
structure AdapterInfo where
  address : Nat
  ipAddressList : List IpAddrString
deriving DecidableEq, Repr

/-- iface_config_t from config.h: per-hardware-address configuration. -/
structure IfaceConfig where
  netnum : Nat
  nodenum : Nat
  enabled : Bool
deriving DecidableEq, Repr

/-- ipx_interface_ip_t: one resolved address of an interface. -/
structure IpxInterfaceIp where
  ipaddr : Nat
  netmask : Nat
  bcast : Nat
deriving DecidableEq, Repr

/-- ipx_interface_t: one virtual IPX interface. -/
structure IpxInterface where
  hwaddr : Nat
  ipx_net : Nat
  ipx_node : Nat
  ipaddr : List IpxInterfaceIp
deriving DecidableEq, Repr

/-- The allocation oracle under which every malloc succeeds. -/
def allocAlways : Nat → Bool := fun _ => true

/-! ## load_sys_interfaces -/

/-- Outcome of one GetAdaptersInfo call, as seen by
load_sys_interfaces: success with the adapter chain, ERROR_NO_DATA,
ERROR_BUFFER_OVERFLOW (buffer too small, try again), or any other
error code. -/
inductive GAIResult where
  | success : List AdapterInfo → GAIResult
  | noData : GAIResult
  | bufferOverflow : GAIResult
  | otherError : Nat → GAIResult
deriving DecidableEq, Repr

/-- The realloc-and-retry loop of load_sys_interfaces.  responses lists
the outcomes of the successive GetAdaptersInfo calls; each loop
iteration first consumes one allocation (the realloc).  The function
returns the adapter chain on ERROR_SUCCESS and NULL (none) in every
other case: allocation failure, ERROR_NO_DATA, and any other error all
free the buffer and return NULL (interface.c lines 46-74).  An
exhausted response list while still overflowing is modelled as NULL as
well. -/
def sysLoop (al : Nat → Bool) (k : Nat) : List GAIResult → Option (List AdapterInfo)
  | [] => none
  | r :: rest =>
    if al k then
      match r with
      | .success adapters => some adapters
      | .noData => none
      | .otherError _ => none
      | .bufferOverflow => sysLoop al (k + 1) rest
    else
      none

/-- load_sys_interfaces: fetch the system adapter list.  NULL (none) on
no-data, on any error and on allocation failure alike. -/
def load_sys_interfaces (al : Nat → Bool) (responses : List GAIResult) : Option (List AdapterInfo) :=
  sysLoop al 0 responses

/-! ## load_ipx_interfaces -/

/-- Result of load_ipx_interfaces.  ok l is a normal return of the
built chain (an empty chain is the NULL pointer); allocFail is the
return NULL after the ipx_interface malloc fails (the partial chain is
freed first); ub marks undefined behaviour: either the NULL
dereference of the disabled-adapter branch or the use of iface after
free_ipx_interface(iface) on the ipx_interface_ip malloc-failure
path. -/
inductive LoadResult where
  | ok : List IpxInterface → LoadResult
  | allocFail : LoadResult
  | ub : LoadResult
deriving DecidableEq, Repr

/-- The C pointer value a caller of load_ipx_interfaces receives: the
chain on a normal return, and NULL — identical to the empty chain — on
the allocation-failure return.  (A ub run never returns.) -/
def loadReturn : LoadResult → List IpxInterface
  | .ok l => l
  | .allocFail => []
  | .ub => []

/-- The inner address loop of load_ipx_interfaces (lines 113-145): for
each IP_ADDR_STRING, read ipaddr and netmask through inet_addr (a
uint32_t, hence the mod 2^32), skip the entry when the address is 0,
otherwise allocate an ipx_interface_ip, fill in the broadcast address
ipaddr | ~netmask, and append it.  A failed allocation frees iface and
the partial nics chain and then continues the loop, after which the
freed iface is still written to — undefined behaviour, reported as
none. -/
def buildAddrs (al : Nat → Bool) (k : Nat) : List IpAddrString → Option (List IpxInterfaceIp × Nat)
  | [] => some ([], k)
  | p :: rest =>
    let ipaddr := p.ipaddr % 2 ^ 32
    let netmask := p.netmask % 2 ^ 32
    if ipaddr = 0 then
      buildAddrs al k rest
    else if al k then
      match buildAddrs al (k + 1) rest with
      | some (l, k2) => some (⟨ipaddr, netmask, ipaddr ||| ((2 ^ 32 - 1) ^^^ netmask)⟩ :: l, k2)
      | none => none
    else
      none

/-- Modelled from the spec: the addr48_in reading of the hamachi_bug
byte array 7A:79:00:00:00:00 (addr48_in lives in addr.h, which is not
part of this excerpt; the spec fixes the big-endian byte packing and
the sentinel value). -/
def hamachiNode : Nat := 0x7A7900000000

/-- Modelled from the spec: addr32_out(hamachi_bug + 2, ip) followed by
addr48_in(hamachi_bug) — the low 4 bytes of the sentinel are replaced
by the 4 bytes of the uint32_t ip, big-endian, giving
0x7A7900000000 + ip. -/
def hamachiFix (ip : Nat) : Nat := 0x7A7900000000 + ip % 2 ^ 32

/-- The Hamachi workaround test of lines 156-164: if the node number
equals the sentinel and the address chain is non-empty, patch the node
number from the first address; otherwise leave it alone. -/
def hamachiAdjust (node : Nat) (addrs : List IpxInterfaceIp) : Nat :=
  match addrs with
  | [] => node
  | a :: _ => if node = hamachiNode then hamachiFix a.ipaddr else node

/-- Field assembly of one ipx_interface (lines 147-164): hardware
address, configured network and node numbers, resolved addresses, and
the Hamachi workaround applied last. -/
def mkIface (config : IfaceConfig) (hw : Nat) (addrs : List IpxInterfaceIp) : IpxInterface :=
  { hwaddr := hw
    ipx_net := config.netnum
    ipx_node := hamachiAdjust config.nodenum addrs
    ipaddr := addrs }

/-- The main adapter loop of load_ipx_interfaces (lines 88-174).

The disabled branch executes ifptr = ifptr->Next; continue;, and the
continue then runs the for-loop increment ifptr = ifptr->Next a second
time: the adapter after a disabled adapter is silently skipped, and
when a disabled adapter is the last node the increment dereferences a
NULL pointer (ub).

The enabled branch allocates the ipx_interface (one oracle slot; on
failure the partial chain is freed and NULL is returned: allocFail),
builds the address chain, assembles the fields, and then prepends the
interface when its hardware address is the primary one, appending it
otherwise. -/
def loadLoop (cfg : Nat → IfaceConfig) (primary : Nat) (al : Nat → Bool) :
    List AdapterInfo → Nat → List IpxInterface → LoadResult
  | [], _, nics => .ok nics
  | a :: rest, k, nics =>
    if (cfg a.address).enabled then
      if al k then
        match buildAddrs al (k + 1) a.ipAddressList with
        | none => .ub
        | some (addrs, k2) =>
          loadLoop cfg primary al rest k2
            (if a.address = primary then mkIface (cfg a.address) a.address addrs :: nics
             else nics ++ [mkIface (cfg a.address) a.address addrs])
      else
        .allocFail
    else
      match rest with
      | [] => .ub
      | _ :: rest2 => loadLoop cfg primary al rest2 k nics

/-- load_ipx_interfaces: build the virtual interface list.  adapters is
the chain load_sys_interfaces produced (NULL becomes the empty list,
over which the loop body never runs); cfg is get_iface_config, primary
is get_primary_iface. -/
def load_ipx_interfaces (cfg : Nat → IfaceConfig) (primary : Nat) (al : Nat → Bool)
    (adapters : List AdapterInfo) : LoadResult :=
  loadLoop cfg primary al adapters 0 []

/-! ## Deep copy helpers -/

/-- The DL_FOREACH copy loop of copy_ipx_interface (lines 201-215):
one malloc per address node, each copy appended in order.  A failed
malloc frees the partial copy and aborts with NULL. -/
def copyAddrList (al : Nat → Bool) (k : Nat) : List IpxInterfaceIp → Option (List IpxInterfaceIp × Nat)
  | [] => some ([], k)
  | ip :: rest =>
    if al k then
      match copyAddrList al (k + 1) rest with
      | some (l, k2) => some (ip :: l, k2)
      | none => none
    else
      none

/-- copy_ipx_interface (lines 184-218): allocate the destination, copy
all scalar fields (struct assignment), reset the address chain and the
list links, then append a freshly allocated copy of every address in
order.  NULL (none) on any allocation failure. -/
def copy_ipx_interface (al : Nat → Bool) (k : Nat) (src : IpxInterface) :
    Option (IpxInterface × Nat) :=
  if al k then
    match copyAddrList al (k + 1) src.ipaddr with
    | some (l, k2) => some ({ src with ipaddr := l }, k2)
    | none => none
  else
    none

/-- copy_ipx_interface_list (lines 242-261): copy every interface of
the chain in order; a failed element copy frees everything copied so
far and returns NULL. -/
def copy_ipx_interface_list (al : Nat → Bool) (k : Nat) : List IpxInterface → Option (List IpxInterface × Nat)
  | [] => some ([], k)
  | i :: rest =>
    match copy_ipx_interface al k i with
    | none => none
    | some (c, k2) =>
      match copy_ipx_interface_list al k2 rest with
      | none => none
      | some (l, k3) => some (c :: l, k3)

/-! ## The interface cache -/

/-- INTERFACE_CACHE_TTL. -/
def INTERFACE_CACHE_TTL : Int := 5

/-- The file-scope cache state: interface_cache (NULL is the empty
list) and interface_cache_ctime. -/
structure CacheState where
  cache : List IpxInterface
  ctime : Int
deriving DecidableEq, Repr

/-- ipx_interfaces_init: empty cache, creation time 0. -/
def ipx_interfaces_init : CacheState := { cache := [], ctime := 0 }

/-- renew_interface_cache (lines 299-308).  build is the result
load_ipx_interfaces would produce if invoked; now1 is the time(NULL)
of the staleness test and now2 the time(NULL) stored afterwards.  When
the snapshot is older than the TTL the old chain is freed, the build
result — NULL, i.e. the empty list, when the build failed — is
installed, and the timestamp is reset; otherwise nothing changes.  The
returned Bool records whether load_ipx_interfaces was invoked; the
outer none is a build that dies with undefined behaviour. -/
def renew_interface_cache (build : LoadResult) (now1 now2 : Int) (s : CacheState) :
    Option (CacheState × Bool) :=
  if now1 - s.ctime > INTERFACE_CACHE_TTL then
    match build with
    | .ub => none
    | b => some ({ cache := loadReturn b, ctime := now2 }, true)
  else
    some (s, false)

/-- The C pointer value a copy returns: the copied chain, or NULL —
again identical to the empty chain — when the copy failed. -/
def copyReturn (r : Option (List IpxInterface × Nat)) : List IpxInterface :=
  match r with
  | some (l, _) => l
  | none => []

/-- get_ipx_interfaces (lines 313-324): under the cache lock, renew if
stale, then hand out a deep copy of the whole cache.  The result
records the cache state on exit, whether the builder ran, and the
returned chain. -/
def get_ipx_interfaces (build : LoadResult) (al : Nat → Bool) (now1 now2 : Int)
    (s : CacheState) : Option (CacheState × Bool × List IpxInterface) :=
  match renew_interface_cache build now1 now2 s with
  | none => none
  | some (s2, invoked) => some (s2, invoked, copyReturn (copy_ipx_interface_list al 0 s2.cache))

/-- ipx_interface_by_addr (lines 329-349): renew, then scan the cache
for the first interface with the given network and node numbers; a hit
is deep-copied (NULL on copy failure), a miss leaves the NULL loop
cursor as the result.  The inner Option is the returned pointer: none
both when the interface does not exist and when the copy fails. -/
def ipx_interface_by_addr (build : LoadResult) (al : Nat → Bool) (now1 now2 : Int)
    (s : CacheState) (net node : Nat) : Option (CacheState × Option IpxInterface) :=
  match renew_interface_cache build now1 now2 s with
  | none => none
  | some (s2, _) =>
    match s2.cache.find? (fun i => i.ipx_net == net && i.ipx_node == node) with
    | none => some (s2, none)
    | some i => some (s2, (copy_ipx_interface al 0 i).map Prod.fst)

/-- ipx_interface_count (lines 378-395): renew, then count the chain. -/
def ipx_interface_count (build : LoadResult) (now1 now2 : Int) (s : CacheState) :
    Option (CacheState × Nat) :=
  match renew_interface_cache build now1 now2 s with
  | none => none
  | some (s2, _) => some (s2, s2.cache.length)

/-- The interfaces a build produces listed in Adapter Source order,
with no primary-first reordering: the reference list against which the
ordering clause of the spec (all non-primary interfaces preserve
Adapter Source order) is stated.  It mirrors the control flow of
loadLoop exactly — including the successor skip of the disabled
branch and the allocation oracle threading — and differs only in
always appending. -/
def buildInSourceOrder (cfg : Nat → IfaceConfig) (al : Nat → Bool) :
    List AdapterInfo → Nat → Option (List IpxInterface)
  | [], _ => some []
  | a :: rest, k =>
    if (cfg a.address).enabled then
      if al k then
        match buildAddrs al (k + 1) a.ipAddressList with
        | none => none
        | some (addrs, k2) =>
          match buildInSourceOrder cfg al rest k2 with
          | none => none
          | some t => some (mkIface (cfg a.address) a.address addrs :: t)
      else
        none
    else
      match rest with
      | [] => none
      | _ :: rest2 => buildInSourceOrder cfg al rest2 k

/-! ## Helper lemmas: cache renewal and deep copies -/

lemma renew_fresh (build : LoadResult) (now1 now2 : Int) (s : CacheState)
    (h : now1 - s.ctime ≤ INTERFACE_CACHE_TTL) :
    renew_interface_cache build now1 now2 s = some (s, false) := by
  unfold renew_interface_cache
  rw [if_neg (not_lt.mpr h)]

lemma renew_stale (build : LoadResult) (hub : build ≠ .ub) (now1 now2 : Int) (s : CacheState)
    (h : now1 - s.ctime > INTERFACE_CACHE_TTL) :
    renew_interface_cache build now1 now2 s = some (⟨loadReturn build, now2⟩, true) := by
  unfold renew_interface_cache
  rw [if_pos h]
  cases build with
  | ok l => rfl
  | allocFail => rfl
  | ub => exact absurd rfl hub

lemma copyAddrList_allocAlways (l : List IpxInterfaceIp) (k : Nat) :
    copyAddrList allocAlways k l = some (l, k + l.length) := by
  induction l generalizing k with
  | nil => simp [copyAddrList]
  | cons ip rest ih =>
    simp only [copyAddrList, allocAlways, if_true, ih (k + 1), List.length_cons]
    exact congrArg some (by rw [Nat.add_assoc, Nat.add_comm 1])

lemma copy_ipx_interface_allocAlways (i : IpxInterface) (k : Nat) :
    copy_ipx_interface allocAlways k i = some (i, k + 1 + i.ipaddr.length) := by
  simp [copy_ipx_interface, allocAlways, copyAddrList_allocAlways]

lemma copy_ipx_interface_list_allocAlways (l : List IpxInterface) (k : Nat) :
    ∃ k2, copy_ipx_interface_list allocAlways k l = some (l, k2) := by
  induction l generalizing k with
  | nil => exact ⟨k, rfl⟩
  | cons i rest ih =>
    obtain ⟨k2, hk⟩ := ih (k + 1 + i.ipaddr.length)
    exact ⟨k2, by simp [copy_ipx_interface_list, copy_ipx_interface_allocAlways, hk]⟩

lemma copyReturn_allocAlways (l : List IpxInterface) :
    copyReturn (copy_ipx_interface_list allocAlways 0 l) = l := by
  obtain ⟨k2, hk⟩ := copy_ipx_interface_list_allocAlways l 0
  simp [copyReturn, hk]

lemma get_fresh (build : LoadResult) (now1 now2 : Int) (s : CacheState)
    (h : now1 - s.ctime ≤ INTERFACE_CACHE_TTL) :
    get_ipx_interfaces build allocAlways now1 now2 s = some (s, false, s.cache) := by
  simp [get_ipx_interfaces, renew_fresh build now1 now2 s h, copyReturn_allocAlways]

lemma get_stale_ok (l : List IpxInterface) (now1 now2 : Int) (s : CacheState)
    (h : now1 - s.ctime > INTERFACE_CACHE_TTL) :
    get_ipx_interfaces (.ok l) allocAlways now1 now2 s = some (⟨l, now2⟩, true, l) := by
  simp [get_ipx_interfaces, renew_stale (.ok l) nofun now1 now2 s h]
  exact ⟨rfl, copyReturn_allocAlways l⟩

/-! ## Helper lemmas: the builder loop -/

/-- One-step unfolding of loadLoop for an arbitrary tail (the equation
lemmas the compiler generates split on the shape of the tail because
the disabled branch matches on it). -/
lemma loadLoop_cons (cfg : Nat → IfaceConfig) (primary : Nat) (al : Nat → Bool)
    (a : AdapterInfo) (rest : List AdapterInfo) (k : Nat) (nics : List IpxInterface) :
    loadLoop cfg primary al (a :: rest) k nics =
      (if (cfg a.address).enabled then
        if al k then
          match buildAddrs al (k + 1) a.ipAddressList with
          | none => .ub
          | some (addrs, k2) =>
            loadLoop cfg primary al rest k2
              (if a.address = primary then mkIface (cfg a.address) a.address addrs :: nics
               else nics ++ [mkIface (cfg a.address) a.address addrs])
        else .allocFail
      else
        match rest with
        | [] => .ub
        | _ :: rest2 => loadLoop cfg primary al rest2 k nics) := by
  cases rest with
  | nil => rw [loadLoop.eq_2]
  | cons head rest2 => rw [loadLoop.eq_3]

/-- One-step unfolding of buildInSourceOrder for an arbitrary tail. -/
lemma buildInSourceOrder_cons (cfg : Nat → IfaceConfig) (al : Nat → Bool)
    (a : AdapterInfo) (rest : List AdapterInfo) (k : Nat) :
    buildInSourceOrder cfg al (a :: rest) k =
      (if (cfg a.address).enabled then
        if al k then
          match buildAddrs al (k + 1) a.ipAddressList with
          | none => none
          | some (addrs, k2) =>
            match buildInSourceOrder cfg al rest k2 with
            | none => none
            | some t => some (mkIface (cfg a.address) a.address addrs :: t)
        else none
      else
        match rest with
        | [] => none
        | _ :: rest2 => buildInSourceOrder cfg al rest2 k) := by
  cases rest with
  | nil => rw [buildInSourceOrder.eq_2]
  | cons head rest2 => rw [buildInSourceOrder.eq_3]

lemma buildAddrs_allocAlways (pairs : List IpAddrString) (k : Nat) :
    buildAddrs allocAlways k pairs =
      some ((pairs.filter (fun p => p.ipaddr % 2 ^ 32 != 0)).map
          (fun p => (⟨p.ipaddr % 2 ^ 32, p.netmask % 2 ^ 32,
            p.ipaddr % 2 ^ 32 ||| ((2 ^ 32 - 1) ^^^ p.netmask % 2 ^ 32)⟩ : IpxInterfaceIp)),
        k + (pairs.filter (fun p => p.ipaddr % 2 ^ 32 != 0)).length) := by
  induction pairs generalizing k with
  | nil => simp [buildAddrs]
  | cons p rest ih =>
    by_cases h : p.ipaddr % 4294967296 = 0
    · simp [buildAddrs, h, ih, List.filter_cons]
    · simp [buildAddrs, h, allocAlways, ih (k + 1), List.filter_cons]
      omega

/-- Every interface a successful build puts in the output either was
already in the accumulator or carries the node number that
field assembly (with the Hamachi workaround) computes from its own
configuration and address chain. -/
lemma loadLoop_mem_node (cfg : Nat → IfaceConfig) (primary : Nat) (al : Nat → Bool)
    (l : List AdapterInfo) (k : Nat) (nics : List IpxInterface) :
    ∀ out, loadLoop cfg primary al l k nics = .ok out → ∀ i ∈ out,
      i ∈ nics ∨ i.ipx_node = hamachiAdjust (cfg i.hwaddr).nodenum i.ipaddr := by
  induction l, k, nics using loadLoop.induct cfg primary al with
  | case1 k nics =>
    intro out h i hi
    rw [loadLoop.eq_1, LoadResult.ok.injEq] at h
    subst h
    exact Or.inl hi
  | case2 a rest k nics h1 h2 hb =>
    intro out h
    rw [loadLoop_cons] at h
    simp [h1, h2, hb] at h
  | case3 a rest k nics h1 h2 addrs k2 hb ih =>
    intro out h i hi
    rw [loadLoop_cons] at h
    simp only [h1, h2, hb, eq_self_iff_true, if_true] at h
    rcases ih out h i hi with hmem | hP
    · by_cases hp : a.address = primary
      · rw [if_pos hp] at hmem
        rcases List.mem_cons.mp hmem with hEq | hmem2
        · subst hEq
          exact Or.inr rfl
        · exact Or.inl hmem2
      · rw [if_neg hp] at hmem
        rcases List.mem_append.mp hmem with hmem2 | hEq
        · exact Or.inl hmem2
        · have hEq2 : i = mkIface (cfg a.address) a.address addrs := by simpa using hEq
          subst hEq2
          exact Or.inr rfl
    · exact Or.inr hP
  | case4 a rest k nics h1 h2 =>
    intro out h
    rw [loadLoop_cons] at h
    simp [h1, h2] at h
  | case5 a k nics h1 =>
    intro out h
    rw [loadLoop.eq_2] at h
    simp [h1] at h
  | case6 a k nics h1 head rest2 ih =>
    intro out h
    rw [loadLoop.eq_3] at h
    simp [h1] at h
    exact ih out h

/-- Shape of a successful build: the output is the prepended
(primary) interfaces, then the starting accumulator, then the appended
(non-primary) interfaces. -/
lemma loadLoop_shape (cfg : Nat → IfaceConfig) (primary : Nat) (al : Nat → Bool)
    (l : List AdapterInfo) (k : Nat) (nics : List IpxInterface) :
    ∀ out, loadLoop cfg primary al l k nics = .ok out →
      ∃ pres apps, (∀ x ∈ pres, x.hwaddr = primary) ∧ (∀ x ∈ apps, x.hwaddr ≠ primary) ∧
        out = pres ++ nics ++ apps := by
  induction l, k, nics using loadLoop.induct cfg primary al with
  | case1 k nics =>
    intro out h
    rw [loadLoop.eq_1, LoadResult.ok.injEq] at h
    subst h
    exact ⟨[], [], by simp, by simp, by simp⟩
  | case2 a rest k nics h1 h2 hb =>
    intro out h
    rw [loadLoop_cons] at h
    simp [h1, h2, hb] at h
  | case3 a rest k nics h1 h2 addrs k2 hb ih =>
    intro out h
    rw [loadLoop_cons] at h
    simp only [h1, h2, hb, eq_self_iff_true, if_true] at h
    obtain ⟨pres, apps, hpres, happs, hout⟩ := ih out h
    by_cases hp : a.address = primary
    · rw [if_pos hp] at hout
      refine ⟨pres ++ [mkIface (cfg a.address) a.address addrs], apps, ?_, happs, ?_⟩
      · intro x hx
        rcases List.mem_append.mp hx with hx2 | hx2
        · exact hpres x hx2
        · have : x = mkIface (cfg a.address) a.address addrs := by simpa using hx2
          subst this
          exact hp
      · rw [hout]
        simp
    · rw [if_neg hp] at hout
      refine ⟨pres, mkIface (cfg a.address) a.address addrs :: apps, hpres, ?_, ?_⟩
      · intro x hx
        rcases List.mem_cons.mp hx with hx2 | hx2
        · subst hx2
          exact hp
        · exact happs x hx2
      · rw [hout]
        simp
  | case4 a rest k nics h1 h2 =>
    intro out h
    rw [loadLoop_cons] at h
    simp [h1, h2] at h
  | case5 a k nics h1 =>
    intro out h
    rw [loadLoop.eq_2] at h
    simp [h1] at h
  | case6 a k nics h1 head rest2 ih =>
    intro out h
    rw [loadLoop.eq_3] at h
    simp [h1] at h
    exact ih out h

/-- Order refinement: filtering the primary-designated interfaces out
of a successful build leaves exactly the non-primary part of the
source-order reference build. -/
lemma loadLoop_filter_src (cfg : Nat → IfaceConfig) (primary : Nat) (al : Nat → Bool)
    (l : List AdapterInfo) (k : Nat) (nics : List IpxInterface) :
    ∀ out, loadLoop cfg primary al l k nics = .ok out →
      ∃ src, buildInSourceOrder cfg al l k = some src ∧
        out.filter (fun i => i.hwaddr != primary) =
          nics.filter (fun i => i.hwaddr != primary) ++
            src.filter (fun i => i.hwaddr != primary) := by
  induction l, k, nics using loadLoop.induct cfg primary al with
  | case1 k nics =>
    intro out h
    rw [loadLoop.eq_1, LoadResult.ok.injEq] at h
    subst h
    exact ⟨[], rfl, by simp⟩
  | case2 a rest k nics h1 h2 hb =>
    intro out h
    rw [loadLoop_cons] at h
    simp [h1, h2, hb] at h
  | case3 a rest k nics h1 h2 addrs k2 hb ih =>
    intro out h
    rw [loadLoop_cons] at h
    simp only [h1, h2, hb, eq_self_iff_true, if_true] at h
    obtain ⟨src, hsrc, hfil⟩ := ih out h
    refine ⟨mkIface (cfg a.address) a.address addrs :: src, ?_, ?_⟩
    · rw [buildInSourceOrder_cons]
      simp [h1, h2, hb, hsrc]
    · by_cases hp : a.address = primary
      · rw [if_pos hp] at hfil
        rw [hfil]
        simp [mkIface, hp, List.filter_cons]
      · rw [if_neg hp] at hfil
        rw [hfil]
        simp [mkIface, hp, List.filter_cons, List.filter_append]
  | case4 a rest k nics h1 h2 =>
    intro out h
    rw [loadLoop_cons] at h
    simp [h1, h2] at h
  | case5 a k nics h1 =>
    intro out h
    rw [loadLoop.eq_2] at h
    simp [h1] at h
  | case6 a k nics h1 head rest2 ih =>
    intro out h
    rw [loadLoop.eq_3] at h
    simp [h1] at h
    obtain ⟨src, hsrc, hfil⟩ := ih out h
    refine ⟨src, ?_, hfil⟩
    rw [buildInSourceOrder.eq_3]
    simp [h1, hsrc]

/-! ## Claim theorems -/

/-- C1 counterexample.  The claim says a failed rebuild leaves the old
snapshot and the old timestamp in place.  In the code,
renew_interface_cache first frees the old chain and then installs the
builder result unconditionally: with the old snapshot holding one
interface at creation time 0, a failed (NULL) rebuild at time 10
leaves the cache empty with timestamp 10 — the snapshot is gone, the
timestamp moved, and a list_interfaces call at time 12 serves the
empty list without retrying the builder, even though the builder would
now succeed. -/
theorem c1_failed_refresh_cex :
    renew_interface_cache .allocFail 10 10 ⟨[⟨1, 2, 3, []⟩], 0⟩ = some (⟨[], 10⟩, true) ∧
    ([] : List IpxInterface) ≠ [⟨1, 2, 3, []⟩] ∧ (10 : Int) ≠ 0 ∧
    get_ipx_interfaces (.ok [⟨1, 2, 3, []⟩]) allocAlways 12 12 ⟨[], 10⟩ =
      some (⟨[], 10⟩, false, []) := by
  decide

/-- C1 (amended): on a refresh where the builder fails, the cache
frees the previous snapshot, installs the builder's NULL result as the
empty list, and sets the timestamp to the refresh time; a subsequent
list_interfaces call within the TTL serves the empty list — not the
prior snapshot — and does not invoke the builder again until the TTL
elapses once more. -/
theorem c1_failed_refresh_installs_empty (s : CacheState) (l : List IpxInterface)
    (t1 t2 t3 t4 : Int) (h1 : t1 - s.ctime > INTERFACE_CACHE_TTL)
    (h2 : t3 - t2 ≤ INTERFACE_CACHE_TTL) :
    renew_interface_cache .allocFail t1 t2 s = some (⟨[], t2⟩, true) ∧
    get_ipx_interfaces (.ok l) allocAlways t3 t4 ⟨[], t2⟩ = some (⟨[], t2⟩, false, []) :=
  ⟨renew_stale .allocFail nofun t1 t2 s h1, get_fresh (.ok l) t3 t4 ⟨[], t2⟩ h2⟩

theorem c1_failed_refresh_installs_empty_witness :
    renew_interface_cache .allocFail 10 10 ⟨[⟨4, 5, 6, []⟩], 0⟩ = some (⟨[], 10⟩, true) ∧
    get_ipx_interfaces (.ok [⟨4, 5, 6, []⟩]) allocAlways 12 12 ⟨[], 10⟩ =
      some (⟨[], 10⟩, false, []) :=
  c1_failed_refresh_installs_empty ⟨[⟨4, 5, 6, []⟩], 0⟩ [⟨4, 5, 6, []⟩] 10 10 12 12
    (by decide) (by decide)

/-- C2: evaluation at the failing input.  With hardware address 1
disabled and hardware address 2 enabled, the build over the adapter
chain [1, 2] yields the empty list — the enabled adapter 2 produces no
interface, because the disabled branch advances ifptr and the for-loop
increment then advances it again — whereas adapter 2 alone yields its
interface.  The claim (and the code's own comment, which says only the
disabled interface is not added) requires adapter 2 to appear in both
runs. -/
theorem c2_disabled_adapter_skips_successor :
    load_ipx_interfaces (fun h => ⟨7, 9, h != 1⟩) 0 allocAlways [⟨1, []⟩, ⟨2, []⟩] = .ok [] ∧
    load_ipx_interfaces (fun h => ⟨7, 9, h != 1⟩) 0 allocAlways [⟨2, []⟩] =
      .ok [⟨2, 7, 9, []⟩] := by
  decide

/-- C3: evaluation at the failing input.  When the allocation of the
first ipx_interface_ip fails (oracle: only allocation 0, the
ipx_interface malloc, succeeds), the code frees iface and the partial
chain but then continues the address loop and afterwards writes
through the freed iface pointer — undefined behaviour instead of an
aborted build with a distinct failure result.  Moreover the one path
that does abort (the ipx_interface malloc failure) returns NULL, the
same value as a successful empty build, so no distinct
resource-exhaustion failure reaches the caller. -/
theorem c3_ip_alloc_failure_use_after_free :
    load_ipx_interfaces (fun _ => ⟨7, 9, true⟩) 0 (fun k => k == 0)
      [⟨1, [⟨0x0A000005, 0xFF000000⟩]⟩] = .ub ∧
    load_ipx_interfaces (fun _ => ⟨7, 9, true⟩) 0 (fun _ => false) [⟨1, []⟩] = .allocFail ∧
    loadReturn .allocFail = loadReturn (.ok []) := by
  decide

/-- C4 counterexample.  The claim says a successful-but-empty outcome
is distinguishable from a failure outcome.  load_sys_interfaces
returns NULL both on ERROR_NO_DATA (no adapters) and on any other
GetAdaptersInfo error, and ipx_interface_by_addr returns NULL both
when no interface matches (net 4, node 4 below) and when the match
exists but its deep copy fails (net 2, node 3 with a failing
allocator) — the empty/absent case and the failure case produce
identical observable results. -/
theorem c4_empty_conflated_with_failure_cex :
    load_sys_interfaces allocAlways [.noData] = none ∧
    load_sys_interfaces allocAlways [.otherError 87] = none ∧
    ipx_interface_by_addr (.ok []) allocAlways 1 1 ⟨[⟨1, 2, 3, []⟩], 0⟩ 4 4 =
      some (⟨[⟨1, 2, 3, []⟩], 0⟩, none) ∧
    ipx_interface_by_addr (.ok []) (fun _ => false) 1 1 ⟨[⟨1, 2, 3, []⟩], 0⟩ 2 3 =
      some (⟨[⟨1, 2, 3, []⟩], 0⟩, none) := by
  decide

/-- C4 (amended): the no-adapters case is not distinguishable from
failure.  load_sys_interfaces returns NULL on ERROR_NO_DATA exactly as
on any error; the builder maps the NULL adapter chain to an empty
interface list whose returned pointer value equals the
allocation-failure return; query callers therefore see NULL both for
empty/absent results and for failures. -/
theorem c4_null_conflation (e : Nat) (cfg : Nat → IfaceConfig) (p : Nat) (al : Nat → Bool) :
    load_sys_interfaces al [.noData] = none ∧
    load_sys_interfaces al [.otherError e] = none ∧
    load_ipx_interfaces cfg p al [] = .ok [] ∧
    loadReturn (.ok []) = loadReturn .allocFail := by
  refine ⟨?_, ?_, rfl, rfl⟩ <;>
    · unfold load_sys_interfaces sysLoop
      split <;> rfl

/-- C5: for every interface a successful build produces, if its
configured node number is the Hamachi sentinel 7A:79:00:00:00:00 then
the workaround applies: with no addresses the node number is left
unmodified; with at least one address the low 4 bytes of the node
number become the first bound IPv4 address (big-endian) while the high
2 bytes remain 7A:79. -/
theorem c5_hamachi_workaround (cfg : Nat → IfaceConfig) (primary : Nat) (al : Nat → Bool)
    (adapters : List AdapterInfo) (out : List IpxInterface)
    (h : load_ipx_interfaces cfg primary al adapters = .ok out)
    (i : IpxInterface) (hi : i ∈ out) (hs : (cfg i.hwaddr).nodenum = hamachiNode) :
    (i.ipaddr = [] → i.ipx_node = hamachiNode) ∧
    (∀ q rest2, i.ipaddr = q :: rest2 →
      i.ipx_node = 0x7A7900000000 + q.ipaddr % 2 ^ 32 ∧
      i.ipx_node / 2 ^ 32 = 0x7A79 ∧ i.ipx_node % 2 ^ 32 = q.ipaddr % 2 ^ 32) := by
  rcases loadLoop_mem_node cfg primary al adapters 0 [] out h i hi with hmem | hP
  · simp at hmem
  · constructor
    · intro he
      rw [hP, he]
      simp [hamachiAdjust, hs]
    · intro q rest2 he
      have hA : hamachiAdjust hamachiNode (q :: rest2) = 0x7A7900000000 + q.ipaddr % 2 ^ 32 := by
        simp [hamachiAdjust, hamachiFix, hamachiNode]
      have hq : q.ipaddr % 2 ^ 32 < 2 ^ 32 := Nat.mod_lt _ (by norm_num)
      rw [hP, hs, he, hA]
      refine ⟨rfl, ?_, ?_⟩ <;> omega

theorem c5_hamachi_workaround_witness :
    (⟨2, 7, 0x7A790A000005, [⟨0x0A000005, 0xFF000000, 0x0AFFFFFF⟩]⟩ : IpxInterface).ipx_node =
      0x7A7900000000 + 0x0A000005 % 2 ^ 32 := by
  have h := c5_hamachi_workaround (fun _ => ⟨7, 0x7A7900000000, true⟩) 0 allocAlways
    [⟨2, [⟨0x0A000005, 0xFF000000⟩]⟩]
    [⟨2, 7, 0x7A790A000005, [⟨0x0A000005, 0xFF000000, 0x0AFFFFFF⟩]⟩] (by decide)
    ⟨2, 7, 0x7A790A000005, [⟨0x0A000005, 0xFF000000, 0x0AFFFFFF⟩]⟩ (by decide) (by decide)
  exact (h.2 ⟨0x0A000005, 0xFF000000, 0x0AFFFFFF⟩ [] rfl).1

/-- C6 counterexample.  The claim says that whenever the adapter set
contains an adapter with the primary hardware address, the interface
for that adapter sits at index 0 of the built list.  Here the primary
adapter (hardware address 2) is enabled and present, but it
immediately follows the disabled adapter 1, so the double advance of
the disabled branch skips it entirely: the build of [1, 2, 3] yields
only the interface of adapter 3, and index 0 does not hold an
interface for the primary adapter. -/
theorem c6_primary_adapter_missing_cex :
    load_ipx_interfaces (fun h => ⟨7, 9, h != 1⟩) 2 allocAlways
      [⟨1, []⟩, ⟨2, []⟩, ⟨3, []⟩] = .ok [⟨3, 7, 9, []⟩] ∧
    (⟨3, 7, 9, []⟩ : IpxInterface).hwaddr ≠ 2 := by
  decide

/-- C6 (amended): if a successful build's output contains an interface
whose hardware address equals the primary designation, then the first
element of the output has the primary hardware address, and the
non-primary interfaces are exactly those of the source-order reference
build, in Adapter Source order.  (An adapter with the primary hardware
address that is disabled, or that is skipped because it immediately
follows a disabled adapter, produces no interface at all.) -/
theorem c6_primary_first_amended (cfg : Nat → IfaceConfig) (primary : Nat) (al : Nat → Bool)
    (adapters : List AdapterInfo) (out : List IpxInterface)
    (h : load_ipx_interfaces cfg primary al adapters = .ok out)
    (i : IpxInterface) (hi : i ∈ out) (hp : i.hwaddr = primary) :
    (∃ i0, out.head? = some i0 ∧ i0.hwaddr = primary) ∧
    (∃ src, buildInSourceOrder cfg al adapters 0 = some src ∧
      out.filter (fun x => x.hwaddr != primary) =
        src.filter (fun x => x.hwaddr != primary)) := by
  constructor
  · obtain ⟨pres, apps, hpres, happs, hout⟩ :=
      loadLoop_shape cfg primary al adapters 0 [] out h
    simp only [List.append_nil] at hout
    cases pres with
    | nil =>
      exfalso
      rw [hout] at hi
      exact happs i (by simpa using hi) hp
    | cons q pres2 =>
      refine ⟨q, ?_, hpres q (by simp)⟩
      rw [hout]
      simp [List.cons_append]
  · obtain ⟨src, hsrc, hfil⟩ := loadLoop_filter_src cfg primary al adapters 0 [] out h
    refine ⟨src, hsrc, ?_⟩
    simpa using hfil

theorem c6_primary_first_amended_witness :
    ([⟨2, 7, 9, []⟩, ⟨3, 7, 9, []⟩] : List IpxInterface).head? = some ⟨2, 7, 9, []⟩ ∧
    ([⟨2, 7, 9, []⟩, ⟨3, 7, 9, []⟩] : List IpxInterface).filter (fun x => x.hwaddr != 2) =
      ([⟨3, 7, 9, []⟩, ⟨2, 7, 9, []⟩] : List IpxInterface).filter (fun x => x.hwaddr != 2) := by
  obtain ⟨⟨i0, hh, hp0⟩, ⟨src, hsrc, hfil⟩⟩ :=
    c6_primary_first_amended (fun _ => ⟨7, 9, true⟩) 2 allocAlways [⟨3, []⟩, ⟨2, []⟩]
      [⟨2, 7, 9, []⟩, ⟨3, 7, 9, []⟩] (by decide) ⟨2, 7, 9, []⟩ (by decide) rfl
  have hs2 : src = [⟨3, 7, 9, []⟩, ⟨2, 7, 9, []⟩] :=
    Option.some_injective _ (hsrc.symm.trans (show
      buildInSourceOrder (fun _ => ⟨7, 9, true⟩) allocAlways [⟨3, []⟩, ⟨2, []⟩] 0 =
        some [⟨3, 7, 9, []⟩, ⟨2, 7, 9, []⟩] by decide))
  have h0 : (⟨2, 7, 9, []⟩ : IpxInterface) = i0 := by simpa using hh
  rw [← h0] at hh
  rw [← hs2]
  exact ⟨hh, hfil⟩

/-- C7: address building for an enabled adapter.  Each bound
IP/netmask pair is processed in order: a pair whose address is 0.0.0.0
is dropped silently, every other pair produces an address entry whose
broadcast is exactly address OR complement of netmask, and an enabled
adapter still becomes an interface carrying the (possibly empty)
resulting address sequence. -/
theorem c7_address_building (cfg : Nat → IfaceConfig) (primary : Nat)
    (pairs : List IpAddrString) (k : Nat) (a : AdapterInfo)
    (h : (cfg a.address).enabled = true) :
    buildAddrs allocAlways k pairs =
      some ((pairs.filter (fun p => p.ipaddr % 2 ^ 32 != 0)).map
          (fun p => (⟨p.ipaddr % 2 ^ 32, p.netmask % 2 ^ 32,
            p.ipaddr % 2 ^ 32 ||| ((2 ^ 32 - 1) ^^^ p.netmask % 2 ^ 32)⟩ : IpxInterfaceIp)),
        k + (pairs.filter (fun p => p.ipaddr % 2 ^ 32 != 0)).length) ∧
    load_ipx_interfaces cfg primary allocAlways [a] =
      .ok [mkIface (cfg a.address) a.address
        ((a.ipAddressList.filter (fun p => p.ipaddr % 2 ^ 32 != 0)).map
          (fun p => (⟨p.ipaddr % 2 ^ 32, p.netmask % 2 ^ 32,
            p.ipaddr % 2 ^ 32 ||| ((2 ^ 32 - 1) ^^^ p.netmask % 2 ^ 32)⟩ : IpxInterfaceIp)))] := by
  refine ⟨buildAddrs_allocAlways pairs k, ?_⟩
  unfold load_ipx_interfaces
  rw [loadLoop.eq_2]
  simp [h, allocAlways, buildAddrs_allocAlways, loadLoop]

theorem c7_address_building_witness :
    buildAddrs allocAlways 0 [⟨0xC0A8010A, 0xFFFFFF00⟩] =
      some ([⟨0xC0A8010A, 0xFFFFFF00, 0xC0A801FF⟩], 1) ∧
    load_ipx_interfaces (fun _ => ⟨7, 9, true⟩) 0 allocAlways [⟨5, [⟨0, 0⟩]⟩] =
      .ok [⟨5, 7, 9, []⟩] := by
  have h1 := c7_address_building (fun _ => ⟨7, 9, true⟩) 0 [⟨0xC0A8010A, 0xFFFFFF00⟩] 0
    ⟨5, [⟨0, 0⟩]⟩ rfl
  exact ⟨h1.1.trans (by decide), h1.2.trans (by decide)⟩

/-- C8: a snapshot is stale only when older than
INTERFACE_CACHE_TTL = 5; two list_interfaces calls within the TTL
window return the identical cached data with the builder not invoked,
a call after the TTL elapses invokes the builder (exactly once for
that call) and installs the fresh snapshot, and a further call within
the TTL of the new snapshot does not rebuild again. -/
theorem c8_ttl_freshness (b b2 : LoadResult) (l : List IpxInterface) (s : CacheState)
    (t1 t2 t3 t4 t5 : Int)
    (h1 : t1 - s.ctime ≤ INTERFACE_CACHE_TTL) (h2 : t2 - s.ctime ≤ INTERFACE_CACHE_TTL)
    (h3 : t3 - s.ctime > INTERFACE_CACHE_TTL) (h5 : t5 - t4 ≤ INTERFACE_CACHE_TTL) :
    INTERFACE_CACHE_TTL = 5 ∧
    get_ipx_interfaces b allocAlways t1 t1 s = some (s, false, s.cache) ∧
    get_ipx_interfaces b allocAlways t2 t2 s = some (s, false, s.cache) ∧
    get_ipx_interfaces (.ok l) allocAlways t3 t4 s = some (⟨l, t4⟩, true, l) ∧
    get_ipx_interfaces b2 allocAlways t5 t5 ⟨l, t4⟩ = some (⟨l, t4⟩, false, l) :=
  ⟨rfl, get_fresh b t1 t1 s h1, get_fresh b t2 t2 s h2, get_stale_ok l t3 t4 s h3,
    get_fresh b2 t5 t5 ⟨l, t4⟩ h5⟩

theorem c8_ttl_freshness_witness :
    INTERFACE_CACHE_TTL = 5 ∧
    get_ipx_interfaces (.ok []) allocAlways 3 3 ⟨[⟨9, 9, 9, []⟩], 0⟩ =
      some (⟨[⟨9, 9, 9, []⟩], 0⟩, false, [⟨9, 9, 9, []⟩]) ∧
    get_ipx_interfaces (.ok []) allocAlways 5 5 ⟨[⟨9, 9, 9, []⟩], 0⟩ =
      some (⟨[⟨9, 9, 9, []⟩], 0⟩, false, [⟨9, 9, 9, []⟩]) ∧
    get_ipx_interfaces (.ok [⟨1, 2, 3, []⟩]) allocAlways 6 7 ⟨[⟨9, 9, 9, []⟩], 0⟩ =
      some (⟨[⟨1, 2, 3, []⟩], 7⟩, true, [⟨1, 2, 3, []⟩]) ∧
    get_ipx_interfaces (.ok []) allocAlways 12 12 ⟨[⟨1, 2, 3, []⟩], 7⟩ =
      some (⟨[⟨1, 2, 3, []⟩], 7⟩, false, [⟨1, 2, 3, []⟩]) :=
  c8_ttl_freshness (.ok []) (.ok []) [⟨1, 2, 3, []⟩] ⟨[⟨9, 9, 9, []⟩], 0⟩ 3 5 6 7 12
    (by decide) (by decide) (by decide) (by decide)

/-- C10: evaluation at the failing input.  A single disabled adapter:
the disabled branch advances ifptr to NULL and the for-loop increment
then evaluates the Next field of the NULL pointer — the loop follows a
successor pointer past the end of the list, undefined behaviour
instead of termination. -/
theorem c10_disabled_last_null_deref :
    load_ipx_interfaces (fun _ => ⟨7, 9, false⟩) 0 allocAlways [⟨1, []⟩] = .ub := by
  decide

end IpxWrapper
